import Mathlib

/-!
# Verification of the library loan/reservation engine

Shallow embedding of the loan/reservation lifecycle engine of the
`Examen-Python-Master-AI-2025-Projet-Biblotheque` repository
(`app/models/book.py`, `app/models/user.py`, `app/models/loan.py`,
`app/models/reservation.py`, `app/services/loan_service.py`,
`app/services/reservation_service.py`, `app/utils/constants.py`).

Modelling conventions:
* Python `datetime` values are modelled as day numbers (`Int`, days since
  1970-01-01): `datetime.strptime`/`strftime` round-trip, so a parsed date
  is identified with its day number, and `timedelta(days=k)` is `+ k`.
  `daysFromCivil` is the standard civil-calendar day-number computation,
  matching `datetime` subtraction semantics.
* The reservation-date *strings* ("JJ/MM/AAAA") that Python sorts
  lexicographically (`list.sort(key=lambda r: r._date_reservation)`) are
  kept as `String` and compared with the lexicographic `String` order,
  exactly as Python compares `str` keys.  Python's `list.sort` is stable;
  a stable sort by a total key order has a unique result, so it is
  modelled by `List.insertionSort` (also stable).
* Methods that mutate objects in place are state-passing functions;
  Python exceptions (`raise ValueError`) become `Except` errors.
* The class-level dict `Reservation._files_attente` is keyed by ISBN and
  every operation touches only one key; states here carry the queue of
  the one title under consideration.
* Wall-clock timestamps and file I/O of `notifier_disponibilite` are
  modelled as an append-only list of `Notification` records (the
  "notification sink" of the spec); the wall-clock header of the log
  text is not part of any claim.
-/

deriving instance DecidableEq for Except

namespace Biblio

/-! ## Dates (`app/utils/validators.py`, Python `datetime`) -/

/-- A calendar date as parsed from "JJ/MM/AAAA" by `parse_date`. -/
structure Date where
  jour : Nat
  mois : Nat
  annee : Nat
deriving DecidableEq

/-- Day number of a civil date (days since 1970-01-01), the standard
days-from-civil computation; `datetime` subtraction returns the
difference of these numbers. -/
def daysFromCivil (y m d : Int) : Int :=
  let y' : Int := if m ≤ 2 then y - 1 else y
  let era : Int := Int.fdiv y' 400
  let yoe : Int := y' - era * 400
  let mp : Int := Int.emod (m + 9) 12
  let doy : Int := Int.fdiv (153 * mp + 2) 5 + d - 1
  let doe : Int := yoe * 365 + Int.fdiv yoe 4 - Int.fdiv yoe 100 + doy
  era * 146097 + doe - 719468

/-- Day number of a `Date`. -/
def Date.toDayNumber (dt : Date) : Int :=
  daysFromCivil (dt.annee : Int) (dt.mois : Int) (dt.jour : Int)

/-- Zero-padded two-digit rendering used by `%d` and `%m`. -/
def pad2 (n : Nat) : String :=
  if n < 10 then "0" ++ toString n else toString n

/-- `format_date`: renders a date in the application-wide "JJ/MM/AAAA"
format (`DATE_FORMAT = "%d/%m/%Y"`, `app/utils/constants.py`). -/
def Date.format (dt : Date) : String :=
  pad2 dt.jour ++ "/" ++ pad2 dt.mois ++ "/" ++ toString dt.annee

/-! ## Constants (`app/utils/constants.py`) -/

/-- Borrowing limit of a student. -/
def LIMITE_EMPRUNTS_ETUDIANT : Nat := 4

/-- Borrowing limit of a teacher. -/
def LIMITE_EMPRUNTS_ENSEIGNANT : Nat := 6

/-- Borrowing limit of administrative staff. -/
def LIMITE_EMPRUNTS_PERSONNEL_ADMIN : Nat := 0

/-- Default loan term in days. -/
def DUREE_EMPRUNT_DEFAUT : Int := 30

/-! ## Books (`app/models/book.py`) -/

/-- `BookStatus` enumeration. -/
inductive BookStatus
  | disponible
  | emprunte
  | reserve
  | perdu
  | endommage
deriving DecidableEq

/-- A catalog entry (`Book`).  The constructor clamps
`exemplaire_disponible` into `[0, nbre_exemplaire_total]`; states built
below respect that invariant. -/
structure Book where
  isbn : String
  titre : String
  auteur : String
  statut : BookStatus
  compteur_emprunt : Nat
  nbre_exemplaire_total : Nat
  exemplaire_disponible : Nat
deriving DecidableEq

/-- `Book.est_disponible`: status is DISPONIBLE *and* a copy is free. -/
def Book.est_disponible (b : Book) : Bool :=
  b.statut == .disponible && decide (0 < b.exemplaire_disponible)

/-- `Book.incrementer_compteur`. -/
def Book.incrementer_compteur (b : Book) : Book :=
  { b with compteur_emprunt := b.compteur_emprunt + 1 }

/-- `Book.incrementer_exemplaire_disponible`: increments the available
count only while it is below the total. -/
def Book.incrementer_exemplaire_disponible (b : Book) : Book :=
  if b.exemplaire_disponible < b.nbre_exemplaire_total then
    { b with exemplaire_disponible := b.exemplaire_disponible + 1 }
  else b

/-- `Book.decrementer_exemplaire_disponible`: decrements the available
count when positive, and flips the status to EMPRUNTE when it reaches 0. -/
def Book.decrementer_exemplaire_disponible (b : Book) : Book :=
  if 0 < b.exemplaire_disponible then
    let d := b.exemplaire_disponible - 1
    { b with exemplaire_disponible := d,
             statut := if d = 0 then .emprunte else b.statut }
  else b

/-! ## Users (`app/models/user.py`) -/

/-- `UserType` enumeration. -/
inductive UserType
  | etudiant
  | enseignant
  | personnelAdmin
deriving DecidableEq

/-- One entry of a patron's embedded active-loan list
(the dict built by `User.ajouter_emprunt`). -/
structure EmpruntEntry where
  id_emprunt : String
  date_emprunt : Int
  date_retour_prevue : Int
  titre_du_livre : String
deriving DecidableEq

/-- A patron (`User` and its three subclasses, which differ only in the
borrowing-limit constant, recovered from `type_utilisateur`). -/
structure User where
  id_user : String
  nom : String
  type_utilisateur : UserType
  nombre_emprunt_total : Nat
  list_emprunt : List EmpruntEntry
deriving DecidableEq

/-- `limite_emprunts`: the per-subclass borrowing-limit constant. -/
def User.limite_emprunts (u : User) : Nat :=
  match u.type_utilisateur with
  | .etudiant => LIMITE_EMPRUNTS_ETUDIANT
  | .enseignant => LIMITE_EMPRUNTS_ENSEIGNANT
  | .personnelAdmin => LIMITE_EMPRUNTS_PERSONNEL_ADMIN

/-- `User.nombre_emprunts_en_cours`. -/
def User.nombre_emprunts_en_cours (u : User) : Nat :=
  u.list_emprunt.length

/-- `User.peut_emprunter`. -/
def User.peut_emprunter (u : User) : Bool :=
  decide (u.nombre_emprunts_en_cours < u.limite_emprunts)

/-! ## Errors

The distinct `raise ValueError(...)` sites of the engine, named after the
error kinds of the spec's §7. -/

/-- Error kinds surfaced by the loan engine. -/
inductive LoanError
  | invalidCount
  | limitExceeded
  | insufficientCopies
  | notAvailable
  | limitReached
  | notFound
deriving DecidableEq

/-- `User.ajouter_emprunt`: raises when the limit is reached, else
appends a summary entry and bumps the lifetime counter. -/
def User.ajouter_emprunt (u : User) (id_emprunt : String)
    (date_emprunt date_retour_prevue : Int) (titre_du_livre : String) :
    Except LoanError User :=
  if ¬ u.peut_emprunter then .error .limitReached
  else .ok { u with
    list_emprunt := u.list_emprunt ++
      [⟨id_emprunt, date_emprunt, date_retour_prevue, titre_du_livre⟩],
    nombre_emprunt_total := u.nombre_emprunt_total + 1 }

/-- Helper of `User.retirer_emprunt`: removes the first entry whose
`id_emprunt` matches (`list.pop(i)` at the first match), `none` when no
entry matches. -/
def removeFirstEntry : List EmpruntEntry → String → Option (List EmpruntEntry)
  | [], _ => none
  | e :: es, id =>
      if e.id_emprunt == id then some es
      else (removeFirstEntry es id).map (e :: ·)

/-- `User.retirer_emprunt`: removes the first matching summary entry,
returning `false` (and an unchanged user) when absent. -/
def User.retirer_emprunt (u : User) (id_emprunt : String) : Bool × User :=
  match removeFirstEntry u.list_emprunt id_emprunt with
  | none => (false, u)
  | some l => (true, { u with list_emprunt := l })

/-! ## Loans (`app/models/loan.py`) -/

/-- A Loan record (`Loan`).  Dates are day numbers; the constructor with
`date_retour_prevue=None` computes `date_emprunt + DUREE_EMPRUNT_DEFAUT`. -/
structure Loan where
  id_emprunt : String
  date_emprunt : Int
  date_retour_prevue : Int
  id_livre : String
  titre_livre : String
  id_utilisateur : String
  nom_utilisateur : String
deriving DecidableEq

/-- The `Loan(...)` construction performed inside
`LoanService.emprunter_livre`: all dates default, so the borrow date is
the current date and the due date is `current + 30`. -/
def mkLoan (id_emprunt : String) (livre : Book) (u : User)
    (currentDate : Int) : Loan :=
  { id_emprunt := id_emprunt
    date_emprunt := currentDate
    date_retour_prevue := currentDate + DUREE_EMPRUNT_DEFAUT
    id_livre := livre.isbn
    titre_livre := livre.titre
    id_utilisateur := u.id_user
    nom_utilisateur := u.nom }

/-- `Loan.verification_disponibilite`: the ISBN must match and the book
must be `est_disponible` with a positive available count. -/
def Loan.verification_disponibilite (l : Loan) (livre : Book) : Bool :=
  if livre.isbn != l.id_livre then false
  else livre.est_disponible && decide (0 < livre.exemplaire_disponible)

/-- `Loan.emprunter`: checks availability and the patron's limit, then
decrements the available count, bumps the lifetime borrow counter and
appends the summary entry to the patron's list.  (The `except` branch of
the source restores state after a raise from `ajouter_emprunt`; that
raise is impossible because `peut_emprunter` was just checked.) -/
def Loan.emprunter (l : Loan) (livre : Book) (u : User) :
    Except LoanError (Book × User) :=
  if ¬ l.verification_disponibilite livre then .error .notAvailable
  else if ¬ u.peut_emprunter then .error .limitReached
  else
    let livre1 := livre.decrementer_exemplaire_disponible
    let livre2 := livre1.incrementer_compteur
    match u.ajouter_emprunt l.id_emprunt l.date_emprunt
        l.date_retour_prevue l.titre_livre with
    | .error e => .error e
    | .ok u1 => .ok (livre2, u1)

/-- `Loan.retourner`: returns `false` (leaving both objects untouched)
on ISBN mismatch or when the patron's list holds no entry for the loan;
otherwise removes the entry, increments the available count (capped at
the total) and restores the status from EMPRUNTE to DISPONIBLE. -/
def Loan.retourner (l : Loan) (livre : Book) (u : User) :
    Bool × Book × User :=
  if livre.isbn != l.id_livre then (false, livre, u)
  else
    match u.retirer_emprunt l.id_emprunt with
    | (false, u') => (false, livre, u')
    | (true, u') =>
        let livre1 := livre.incrementer_exemplaire_disponible
        let livre2 :=
          if 0 < livre1.exemplaire_disponible ∧ livre1.statut = .emprunte
          then { livre1 with statut := .disponible } else livre1
        (true, livre2, u')

/-- `Loan.detecter_retard`: whole-day difference between the current
date (from the date source) and the due date, clamped below at 0. -/
def Loan.detecter_retard (l : Loan) (currentDate : Int) : Int :=
  max 0 (currentDate - l.date_retour_prevue)

/-- `Loan.calculer_penalites`: per-day rate times the late-day count. -/
def Loan.calculer_penalites (l : Loan) (currentDate : Int)
    (taux_par_jour : Int) : Int :=
  l.detecter_retard currentDate * taux_par_jour

/-! ## Loan service (`app/services/loan_service.py`) -/

/-- The `for i in range(nbre_exemplaires)` loop of
`LoanService.emprunter_livre`: creates one `Loan` per requested copy
(ids come from the id generator) and performs `Loan.emprunter` on the
book/patron state threaded through the iterations; a raise propagates. -/
def emprunterBoucle (currentDate : Int) :
    List String → Book → User → Except LoanError (Book × User × List Loan)
  | [], livre, u => .ok (livre, u, [])
  | id :: ids, livre, u =>
      match (mkLoan id livre u currentDate).emprunter livre u with
      | .error e => .error e
      | .ok (livre1, u1) =>
          match emprunterBoucle currentDate ids livre1 u1 with
          | .error e => .error e
          | .ok (livre2, u2, ls) =>
              .ok (livre2, u2, mkLoan id livre u currentDate :: ls)

/-- `LoanService.emprunter_livre`: rejects a non-positive count, a count
above the patron's remaining limit (LimitExceeded) and a count above the
available copies (InsufficientCopies), then runs the creation loop.
`idGen` models `generate_id`. -/
def emprunter_livre (livre : Book) (u : User) (nbre_exemplaires : Int)
    (currentDate : Int) (idGen : Nat → String) :
    Except LoanError (Book × User × List Loan) :=
  if nbre_exemplaires < 1 then .error .invalidCount
  else if (u.limite_emprunts : Int) - (u.nombre_emprunts_en_cours : Int)
      < nbre_exemplaires then .error .limitExceeded
  else if (livre.exemplaire_disponible : Int) < nbre_exemplaires then
    .error .insufficientCopies
  else
    emprunterBoucle currentDate
      ((List.range nbre_exemplaires.toNat).map idGen) livre u

/-- Removal of the first loan with a given id (`self.loans.remove(loan)`;
`Loan.__eq__` compares ids). -/
def removeFirstLoan : List Loan → String → List Loan
  | [], _ => []
  | l :: ls, id => if l.id_emprunt == id then ls else l :: removeFirstLoan ls id

/-- `LoanService.retourner_livre`: finds the loan by id (NotFound when
absent), performs `Loan.retourner`, and only on success removes the Loan
record from the active set. -/
def retourner_livre (loans : List Loan) (id_emprunt : String)
    (livre : Book) (u : User) :
    Except LoanError (Bool × List Loan × Book × User) :=
  match loans.find? (fun l => l.id_emprunt == id_emprunt) with
  | none => .error .notFound
  | some loan =>
      match loan.retourner livre u with
      | (true, livre', u') =>
          .ok (true, removeFirstLoan loans loan.id_emprunt, livre', u')
      | (false, livre', u') => .ok (false, loans, livre', u')

/-- `LoanService.detecter_retards`: splits the active loans into the
"due tomorrow" list (lateness = -1) and the overdue list (lateness > 0),
in iteration order. -/
def detecter_retards (currentDate : Int) :
    List Loan → List Loan × List Loan
  | [] => ([], [])
  | l :: ls =>
      let (avant, retard) := detecter_retards currentDate ls
      let jours := l.detecter_retard currentDate
      if 0 < jours then (avant, l :: retard)
      else if jours = -1 then (l :: avant, retard)
      else (avant, retard)

/-! ## Reservations (`app/models/reservation.py`) -/

/-- A Reservation record.  `date_reservation` is kept as the raw
"JJ/MM/AAAA" *string*, because the queue is sorted by that string;
`date_emprunt`/`date_retour_prevue` (desired borrow/due dates, consumed
via `parse_date` when a reservation is promoted) are day numbers. -/
structure Reservation where
  id_reservation : String
  date_reservation : String
  id_livre : String
  titre_livre : String
  id_utilisateur : String
  nom_utilisateur : String
  date_emprunt : Int
  date_retour_prevue : Int
  position_file : Nat
deriving DecidableEq

/-- Python's `str` comparison: lexicographic by code point. -/
def strLt : List Char → List Char → Bool
  | [], [] => false
  | [], _ :: _ => true
  | _ :: _, [] => false
  | a :: as, b :: bs =>
      if a < b then true else if b < a then false else strLt as bs

/-- The sort key order of `list.sort(key=lambda r: r._date_reservation)`:
a stable ascending sort by `<` on the key places `a` no later than `b`
exactly when `¬ (key b < key a)`. -/
def resDateLe (a b : Reservation) : Prop :=
  strLt b.date_reservation.toList a.date_reservation.toList = false

instance : DecidableRel resDateLe := fun a b =>
  inferInstanceAs
    (Decidable (strLt b.date_reservation.toList a.date_reservation.toList = false))

/-- `Reservation._mettre_a_jour_positions`: the `enumerate(..., start=1)`
loop writing positions 1..N into the queue's records. -/
def renumberFrom : Nat → List Reservation → List Reservation
  | _, [] => []
  | n, r :: rs => { r with position_file := n } :: renumberFrom (n + 1) rs

/-- Position update starting at 1. -/
def renumber (q : List Reservation) : List Reservation := renumberFrom 1 q

/-- `Reservation.ajouter_a_file`: when the reservation (compared by id,
per `Reservation.__eq__`) is not yet queued, appends it, stably sorts by
the reservation-date string and renumbers positions 1..N. -/
def ajouter_a_file (q : List Reservation) (r : Reservation) :
    List Reservation :=
  if q.any (fun x => x.id_reservation == r.id_reservation) then q
  else renumber (List.insertionSort resDateLe (q ++ [r]))

/-- Removal of the first reservation with a given id
(`list.remove`; `Reservation.__eq__` compares ids). -/
def removeFirstRes : List Reservation → String → List Reservation
  | [], _ => []
  | r :: rs, id =>
      if r.id_reservation == id then rs else r :: removeFirstRes rs id

/-- `Reservation.retirer_de_file`: removes the reservation from the
queue when present and renumbers; reports whether a removal happened. -/
def retirer_de_file (q : List Reservation) (r : Reservation) :
    Bool × List Reservation :=
  if q.any (fun x => x.id_reservation == r.id_reservation) then
    (true, renumber (removeFirstRes q r.id_reservation))
  else (false, q)

/-- `Reservation.get_prochaine_reservation`: the queue head, if any. -/
def get_prochaine_reservation (q : List Reservation) : Option Reservation :=
  q.head?

/-- Error kinds surfaced by the reservation engine. -/
inductive ResError
  | isbnMismatch
  | userMismatch
  | alreadyAvailable
  | duplicateReservation
deriving DecidableEq

/-- `Reservation.reserver`: checks that book and patron match the
record, rejects an `est_disponible` book (AlreadyAvailable) and a patron
already queued for this title (DuplicateReservation), then enqueues the
reservation and marks the book RESERVE. -/
def Reservation.reserver (r : Reservation) (livre : Book) (u : User)
    (q : List Reservation) : Except ResError (List Reservation × Book) :=
  if livre.isbn != r.id_livre then .error .isbnMismatch
  else if u.id_user != r.id_utilisateur then .error .userMismatch
  else if livre.est_disponible then .error .alreadyAvailable
  else if q.any (fun x => x.id_utilisateur == r.id_utilisateur) then
    .error .duplicateReservation
  else
    let q' := ajouter_a_file q r
    let livre' := if livre.statut ≠ .reserve
      then { livre with statut := .reserve } else livre
    .ok (q', livre')

/-- `Reservation.annuler_reservation`: removes the reservation from the
queue; when the queue becomes empty, restores the book status to
DISPONIBLE (copies free) or EMPRUNTE (no copy free). -/
def Reservation.annuler_reservation (r : Reservation) (livre : Book)
    (q : List Reservation) : Bool × Book × List Reservation :=
  match retirer_de_file q r with
  | (true, q') =>
      let livre' :=
        if q'.isEmpty then
          if 0 < livre.exemplaire_disponible then
            { livre with statut := .disponible }
          else if livre.exemplaire_disponible = 0 then
            { livre with statut := .emprunte }
          else livre
        else livre
      (true, livre', q')
  | (false, q') => (false, livre, q')

/-- One entry of the notification log (`reservation.log`): the fields of
the message written by `Reservation.notifier_disponibilite` (minus the
wall-clock header). -/
structure Notification where
  titre : String
  isbn : String
  id_reservation : String
  id_utilisateur : String
  nom_utilisateur : String
  position_file : Nat
  date_reservation : String
deriving DecidableEq

/-- The notification block written for the queue-head reservation. -/
def mkNotification (livre : Book) (r : Reservation) : Notification :=
  { titre := livre.titre
    isbn := livre.isbn
    id_reservation := r.id_reservation
    id_utilisateur := r.id_utilisateur
    nom_utilisateur := r.nom_utilisateur
    position_file := r.position_file
    date_reservation := r.date_reservation }

/-- `Reservation.notifier_disponibilite`: no-op returning `false` when
the title's queue is empty; otherwise appends one notification block for
the head reservation to the log and returns `true`.  It touches neither
the queue nor the book. -/
def notifier_disponibilite (livre : Book) (q : List Reservation)
    (log : List Notification) :
    Bool × List Reservation × Book × List Notification :=
  match get_prochaine_reservation q with
  | none => (false, q, livre, log)
  | some r => (true, q, livre, log ++ [mkNotification livre r])

/-! ## Reservation service (`app/services/reservation_service.py`) -/

/-- `BookService.get_livre_by_isbn`. -/
def get_livre_by_isbn (books : List Book) (isbn : String) : Option Book :=
  books.find? (fun b => b.isbn == isbn)

/-- `UserService.get_utilisateur_by_id`. -/
def get_utilisateur_by_id (users : List User) (id : String) : Option User :=
  users.find? (fun u => u.id_user == id)

/-- `BookService.mettre_a_jour_livre`: replaces the stored book with the
same ISBN (the services share the *same* Python objects, so a later
in-place mutation of the book is visible in the service list; states
below therefore always store the final value of the book). -/
def mettre_a_jour_livre (books : List Book) (livre : Book) : List Book :=
  books.map (fun b => if b.isbn == livre.isbn then livre else b)

/-- `UserService.mettre_a_jour_utilisateur`. -/
def mettre_a_jour_utilisateur (users : List User) (u : User) : List User :=
  users.map (fun x => if x.id_user == u.id_user then u else x)

/-- The state touched by `ReservationService`: its reservation list, the
class-level waiting queue of the one title under consideration
(`Reservation._files_attente[isbn]`), the book and user collections of
the two collaborating services, and the active loan set. -/
structure LibraryState where
  reservations : List Reservation
  fileAttente : List Reservation
  books : List Book
  users : List User
  loans : List Loan
deriving DecidableEq

/-- `ReservationService.reserver_livre`: builds the `Reservation` for
this book/patron (so the ISBN and user id of the record match by
construction) and runs `Reservation.reserver`; on success the record is
also appended to the service's list.  `newId` models `generate_id`,
`dateRes` the current date string, and the desired dates default to the
reservation date and 30 days later. -/
def reserver_livre (s : LibraryState) (livre : Book) (u : User)
    (newId : String) (dateRes : String) (dateResNum : Int) :
    Except ResError (Reservation × LibraryState) :=
  let r : Reservation :=
    { id_reservation := newId
      date_reservation := dateRes
      id_livre := livre.isbn
      titre_livre := livre.titre
      id_utilisateur := u.id_user
      nom_utilisateur := u.nom
      date_emprunt := dateResNum
      date_retour_prevue := dateResNum + DUREE_EMPRUNT_DEFAUT
      position_file := 0 }
  match r.reserver livre u s.fileAttente with
  | .error e => .error e
  | .ok (q', livre') =>
      .ok (r, { s with
        reservations := s.reservations ++ [r]
        fileAttente := q'
        books := mettre_a_jour_livre s.books livre' })

/-- `ReservationService.transformer_reservation_en_emprunt`: looks up
the reservation, book and patron; requires `est_disponible`; creates a
loan carrying the reservation's desired dates and performs the borrow;
on success appends the loan, cancels the reservation (queue removal,
renumbering, possible status restore) and drops it from the service
list.  Any failure (including a raise inside the `try`) returns `false`
with the state unchanged. -/
def transformer_reservation_en_emprunt (s : LibraryState)
    (id_reservation : String) (newLoanId : String) : Bool × LibraryState :=
  match s.reservations.find?
      (fun r => r.id_reservation == id_reservation) with
  | none => (false, s)
  | some res =>
      match get_livre_by_isbn s.books res.id_livre,
            get_utilisateur_by_id s.users res.id_utilisateur with
      | some livre, some u =>
          if ¬ livre.est_disponible then (false, s)
          else
            let emprunt : Loan :=
              { id_emprunt := newLoanId
                date_emprunt := res.date_emprunt
                date_retour_prevue := res.date_retour_prevue
                id_livre := livre.isbn
                titre_livre := livre.titre
                id_utilisateur := u.id_user
                nom_utilisateur := u.nom }
            match emprunt.emprunter livre u with
            | .error _ => (false, s)
            | .ok (livre1, u1) =>
                match res.annuler_reservation livre1 s.fileAttente with
                | (_, livre2, q') =>
                    (true, { s with
                      reservations :=
                        removeFirstRes s.reservations res.id_reservation
                      fileAttente := q'
                      books := mettre_a_jour_livre s.books livre2
                      users := mettre_a_jour_utilisateur s.users u1
                      loans := s.loans ++ [emprunt] })
      | _, _ => (false, s)

/-! ## Concrete instances used by the claim theorems and witnesses -/

/-- Day number of 09/01/2025. -/
def jan9 : Int := Date.toDayNumber ⟨9, 1, 2025⟩

/-- Day number of 10/01/2025. -/
def jan10 : Int := Date.toDayNumber ⟨10, 1, 2025⟩

/-- A loan due on 10/01/2025 (borrowed 11/12/2024, 30-day term). -/
def loanC3 : Loan :=
  { id_emprunt := "empruntAa001"
    date_emprunt := Date.toDayNumber ⟨11, 12, 2024⟩
    date_retour_prevue := jan10
    id_livre := "Bk001"
    titre_livre := "T"
    id_utilisateur := "userAa001"
    nom_utilisateur := "P" }

/-- A reservation made on 25/01/2025 (the first one placed). -/
def resJan25 : Reservation :=
  { id_reservation := "reservationAa001"
    date_reservation := "25/01/2025"
    id_livre := "Bk001"
    titre_livre := "T"
    id_utilisateur := "userAa001"
    nom_utilisateur := "P"
    date_emprunt := Date.toDayNumber ⟨25, 1, 2025⟩
    date_retour_prevue := Date.toDayNumber ⟨25, 1, 2025⟩ + 30
    position_file := 0 }

/-- A reservation made on 03/02/2025 (the second one placed, nine days
after [resJan25]). -/
def resFeb3 : Reservation :=
  { id_reservation := "reservationAb002"
    date_reservation := "03/02/2025"
    id_livre := "Bk001"
    titre_livre := "T"
    id_utilisateur := "userAb002"
    nom_utilisateur := "Q"
    date_emprunt := Date.toDayNumber ⟨3, 2, 2025⟩
    date_retour_prevue := Date.toDayNumber ⟨3, 2, 2025⟩ + 30
    position_file := 0 }

/-- Patron Q of the spec's §8 scenario: a student with no active loan. -/
def userQ : User :=
  { id_user := "userQq001", nom := "Q", type_utilisateur := .etudiant
    nombre_emprunt_total := 0, list_emprunt := [] }

/-- Patron R of the spec's §8 scenario. -/
def userR : User :=
  { id_user := "userRr001", nom := "R", type_utilisateur := .etudiant
    nombre_emprunt_total := 0, list_emprunt := [] }

/-- Q's head reservation (position 1) in the spec's §8 scenario. -/
def resQ : Reservation :=
  { id_reservation := "reservationQq001"
    date_reservation := "05/01/2025"
    id_livre := "Bk001"
    titre_livre := "T"
    id_utilisateur := "userQq001"
    nom_utilisateur := "Q"
    date_emprunt := Date.toDayNumber ⟨5, 1, 2025⟩
    date_retour_prevue := Date.toDayNumber ⟨5, 1, 2025⟩ + 30
    position_file := 1 }

/-- R's reservation (position 2) in the spec's §8 scenario. -/
def resR : Reservation :=
  { id_reservation := "reservationRr002"
    date_reservation := "06/01/2025"
    id_livre := "Bk001"
    titre_livre := "T"
    id_utilisateur := "userRr001"
    nom_utilisateur := "R"
    date_emprunt := Date.toDayNumber ⟨6, 1, 2025⟩
    date_retour_prevue := Date.toDayNumber ⟨6, 1, 2025⟩ + 30
    position_file := 2 }

/-- Title T of the spec's §8 scenario right after one of its two copies
is returned while Q and R are queued: `Loan.retourner` incremented the
available count to 1 but left the status RESERVE (it only restores
EMPRUNTE to DISPONIBLE), which is exactly the state the actual code
produces. -/
def livreScenario : Book :=
  { isbn := "Bk001", titre := "T", auteur := "A", statut := .reserve
    compteur_emprunt := 2, nbre_exemplaire_total := 2
    exemplaire_disponible := 1 }

/-- The same title with its status manually reset to DISPONIBLE (the
only way `est_disponible` can hold while the queue is non-empty). -/
def livreScenarioDispo : Book := { livreScenario with statut := .disponible }

/-- §8 scenario state as the code produces it (status RESERVE). -/
def stateScenario : LibraryState :=
  { reservations := [resQ, resR], fileAttente := [resQ, resR]
    books := [livreScenario], users := [userQ, userR], loans := [] }

/-- §8 scenario state with the title's status reset to DISPONIBLE. -/
def stateScenarioDispo : LibraryState :=
  { stateScenario with books := [livreScenarioDispo] }

/-- A fresh student patron. -/
def userFresh : User :=
  { id_user := "userFf001", nom := "F", type_utilisateur := .etudiant
    nombre_emprunt_total := 0, list_emprunt := [] }

/-- A student with four active loans (at the student limit). -/
def userAtLimit : User :=
  { id_user := "userLl001", nom := "L", type_utilisateur := .etudiant
    nombre_emprunt_total := 4
    list_emprunt :=
      [⟨"empruntL1", 0, 30, "T"⟩, ⟨"empruntL2", 0, 30, "T"⟩,
       ⟨"empruntL3", 0, 30, "T"⟩, ⟨"empruntL4", 0, 30, "T"⟩] }

/-- An available title with 3 total copies, 2 of them free. -/
def livreDeuxDispo : Book :=
  { isbn := "Bk002", titre := "U", auteur := "A", statut := .disponible
    compteur_emprunt := 1, nbre_exemplaire_total := 3
    exemplaire_disponible := 2 }

/-- The same title with status RESERVE (copies still free). -/
def livreDeuxReserve : Book := { livreDeuxDispo with statut := .reserve }

/-- The same title with no free copy. -/
def livreZeroDispo : Book :=
  { livreDeuxDispo with statut := .emprunte, exemplaire_disponible := 0 }

/-- A deterministic stand-in for `generate_id` in witnesses. -/
def idGenW (n : Nat) : String := "emprunt" ++ toString n

/-- [livreDeuxDispo] after a successful 2-copy borrow. -/
def livreApresW : Book :=
  { isbn := "Bk002", titre := "U", auteur := "A", statut := .emprunte
    compteur_emprunt := 3, nbre_exemplaire_total := 3
    exemplaire_disponible := 0 }

/-- [userFresh] after a successful 2-copy borrow dated day 0. -/
def userApresW : User :=
  { id_user := "userFf001", nom := "F", type_utilisateur := .etudiant
    nombre_emprunt_total := 2
    list_emprunt := [⟨"emprunt0", 0, 30, "U"⟩, ⟨"emprunt1", 0, 30, "U"⟩] }

/-- The two loan records created by that borrow. -/
def loansApresW : List Loan :=
  [⟨"emprunt0", 0, 30, "Bk002", "U", "userFf001", "F"⟩,
   ⟨"emprunt1", 0, 30, "Bk002", "U", "userFf001", "F"⟩]

/-- The single loan of the round-trip witness. -/
def loanW8 : Loan := ⟨"empruntW8", 0, 30, "Bk002", "U", "userFf001", "F"⟩

/-- [livreDeuxDispo] after borrowing one copy (the round-trip midpoint). -/
def livreApresW8 : Book :=
  { isbn := "Bk002", titre := "U", auteur := "A", statut := .disponible
    compteur_emprunt := 2, nbre_exemplaire_total := 3
    exemplaire_disponible := 1 }

/-- [userFresh] after borrowing one copy (the round-trip midpoint). -/
def userApresW8 : User :=
  { id_user := "userFf001", nom := "F", type_utilisateur := .etudiant
    nombre_emprunt_total := 1
    list_emprunt := [⟨"empruntW8", 0, 30, "U"⟩] }

/-- A reservation by [userFresh] for the unavailable [livreZeroDispo]. -/
def rW7 : Reservation :=
  { id_reservation := "reservationW7001"
    date_reservation := "08/01/2025"
    id_livre := "Bk002"
    titre_livre := "U"
    id_utilisateur := "userFf001"
    nom_utilisateur := "F"
    date_emprunt := 0
    date_retour_prevue := 30
    position_file := 0 }

/-- A reservation by a third patron for the §8 scenario title
(placed 07/01/2025, after Q's and R's). -/
def rW7C : Reservation :=
  { id_reservation := "reservationW7C01"
    date_reservation := "07/01/2025"
    id_livre := "Bk001"
    titre_livre := "T"
    id_utilisateur := "userFf001"
    nom_utilisateur := "F"
    date_emprunt := 0
    date_retour_prevue := 30
    position_file := 0 }

/-! ## Helper lemmas -/

/-- `retirer_emprunt` finds nothing when no entry carries the id. -/
theorem removeFirstEntry_eq_none {l : List EmpruntEntry} {id : String}
    (h : ∀ e ∈ l, e.id_emprunt ≠ id) : removeFirstEntry l id = none := by
  induction l with
  | nil => rfl
  | cons e es ih =>
      have he : (e.id_emprunt == id) = false := by
        simpa using h e (List.mem_cons_self e es)
      simp [removeFirstEntry, he, ih fun x hx => h x (List.mem_cons_of_mem e hx)]

/-- `retirer_emprunt` removes exactly one entry when one matches. -/
theorem removeFirstEntry_eq_some {l : List EmpruntEntry} {id : String}
    (h : ∃ e ∈ l, e.id_emprunt = id) :
    ∃ l', removeFirstEntry l id = some l' ∧ l'.length + 1 = l.length := by
  induction l with
  | nil => simp at h
  | cons e es ih =>
      by_cases he : e.id_emprunt = id
      · exact ⟨es, by simp [removeFirstEntry, he], rfl⟩
      · obtain ⟨x, hx, hxid⟩ := h
        rcases List.mem_cons.mp hx with rfl | hx'
        · exact absurd hxid he
        · obtain ⟨l', hl', hlen⟩ := ih ⟨x, hx', hxid⟩
          refine ⟨e :: l', ?_, by simpa using hlen⟩
          simp [removeFirstEntry, he, hl']

/-- Renumbering rewrites positions to `start..start+N-1`. -/
theorem renumberFrom_positions :
    ∀ (n : Nat) (l : List Reservation),
      (renumberFrom n l).map (fun r => r.position_file) =
        List.range' n l.length := by
  intro n l
  induction l generalizing n with
  | nil => rfl
  | cons r rs ih => simp [renumberFrom, List.range', ih]

/-- Renumbering keeps ids (in order). -/
theorem renumberFrom_ids :
    ∀ (n : Nat) (l : List Reservation),
      (renumberFrom n l).map (fun r => r.id_reservation) =
        l.map (fun r => r.id_reservation) := by
  intro n l
  induction l generalizing n with
  | nil => rfl
  | cons r rs ih => simp [renumberFrom, ih]

/-- The enqueued reservation's id is in the queue `ajouter_a_file`
produces. -/
theorem mem_ajouter_a_file (q : List Reservation) (r : Reservation) :
    r.id_reservation ∈ (ajouter_a_file q r).map (fun x => x.id_reservation) := by
  unfold ajouter_a_file
  split_ifs with h
  · obtain ⟨x, hx, hxid⟩ := List.any_eq_true.mp h
    exact List.mem_map.mpr ⟨x, hx, by simpa using hxid⟩
  · unfold renumber
    rw [renumberFrom_ids]
    refine List.mem_map.mpr ⟨r, ?_, rfl⟩
    have : r ∈ q ++ [r] := by simp
    exact ((List.perm_insertionSort resDateLe (q ++ [r])).mem_iff).mpr this

/-- Elimination of a successful `Loan.emprunter`: the checks passed and
the two objects were updated as the source writes them. -/
theorem emprunter_ok_elim {l : Loan} {livre : Book} {u : User}
    {livre1 : Book} {u1 : User}
    (h : l.emprunter livre u = .ok (livre1, u1)) :
    livre.isbn = l.id_livre ∧ livre.statut = .disponible ∧
    0 < livre.exemplaire_disponible ∧
    u.nombre_emprunts_en_cours < u.limite_emprunts ∧
    livre1 = livre.decrementer_exemplaire_disponible.incrementer_compteur ∧
    u1 = { u with
      list_emprunt := u.list_emprunt ++
        [⟨l.id_emprunt, l.date_emprunt, l.date_retour_prevue, l.titre_livre⟩],
      nombre_emprunt_total := u.nombre_emprunt_total + 1 } := by
  by_cases h1 : l.verification_disponibilite livre = true
  case neg =>
    exfalso
    unfold Loan.emprunter at h
    rw [if_pos (by simpa using h1)] at h
    exact Except.noConfusion h
  by_cases h2 : u.peut_emprunter = true
  case neg =>
    exfalso
    unfold Loan.emprunter at h
    rw [if_neg (by simpa using h1), if_pos (by simpa using h2)] at h
    exact Except.noConfusion h
  unfold Loan.emprunter at h
  rw [if_neg (by simpa using h1), if_neg (by simpa using h2)] at h
  simp only [User.ajouter_emprunt] at h
  rw [if_neg (by simp [h2])] at h
  simp only [Except.ok.injEq, Prod.mk.injEq] at h
  obtain ⟨hliv, hu⟩ := h
  have hisbn : livre.isbn = l.id_livre := by
    by_contra hne
    unfold Loan.verification_disponibilite at h1
    rw [if_pos (by simpa using hne)] at h1
    exact Bool.false_ne_true h1
  have hrest :
      (livre.est_disponible && decide (0 < livre.exemplaire_disponible)) = true := by
    unfold Loan.verification_disponibilite at h1
    rwa [if_neg (by simp [hisbn])] at h1
  have hstat : livre.statut = .disponible := by
    have hd := Bool.and_elim_left hrest
    unfold Book.est_disponible at hd
    simpa using Bool.and_elim_left hd
  have hpos : 0 < livre.exemplaire_disponible := by
    simpa using Bool.and_elim_right hrest
  have hlim : u.nombre_emprunts_en_cours < u.limite_emprunts := by
    simpa [User.peut_emprunter] using h2
  exact ⟨hisbn, hstat, hpos, hlim, hliv.symm, hu.symm⟩

/-- Introduction of a successful `Loan.emprunter`. -/
theorem emprunter_ok_intro {l : Loan} {livre : Book} {u : User}
    (hisbn : livre.isbn = l.id_livre) (hstat : livre.statut = .disponible)
    (hpos : 0 < livre.exemplaire_disponible)
    (hlim : u.nombre_emprunts_en_cours < u.limite_emprunts) :
    l.emprunter livre u = .ok
      (livre.decrementer_exemplaire_disponible.incrementer_compteur,
       { u with
         list_emprunt := u.list_emprunt ++
           [⟨l.id_emprunt, l.date_emprunt, l.date_retour_prevue, l.titre_livre⟩],
         nombre_emprunt_total := u.nombre_emprunt_total + 1 }) := by
  have h1 : l.verification_disponibilite livre = true := by
    unfold Loan.verification_disponibilite
    rw [if_neg (by simp [hisbn])]
    simp [Book.est_disponible, hstat, hpos]
  have h2 : u.peut_emprunter = true := by
    simp [User.peut_emprunter, hlim]
  unfold Loan.emprunter
  rw [if_neg (by simpa using h1), if_neg (by simpa using h2)]
  simp [User.ajouter_emprunt, h2]

/-- A borrow step takes one copy off the available count. -/
theorem decr_incr_dispo (b : Book) (h : 0 < b.exemplaire_disponible) :
    b.decrementer_exemplaire_disponible.incrementer_compteur.exemplaire_disponible
      = b.exemplaire_disponible - 1 := by
  simp [Book.decrementer_exemplaire_disponible, Book.incrementer_compteur, h]

/-- A borrow step keeps the ISBN. -/
theorem decr_incr_isbn (b : Book) :
    b.decrementer_exemplaire_disponible.incrementer_compteur.isbn = b.isbn := by
  unfold Book.decrementer_exemplaire_disponible Book.incrementer_compteur
  split_ifs <;> rfl

/-- A borrow step keeps the total copy count. -/
theorem decr_incr_total (b : Book) :
    b.decrementer_exemplaire_disponible.incrementer_compteur.nbre_exemplaire_total
      = b.nbre_exemplaire_total := by
  unfold Book.decrementer_exemplaire_disponible Book.incrementer_compteur
  split_ifs <;> rfl

/-- A borrow step keeps an available book available while a second copy
remains. -/
theorem decr_incr_statut (b : Book) (hstat : b.statut = .disponible)
    (h : 1 < b.exemplaire_disponible) :
    b.decrementer_exemplaire_disponible.incrementer_compteur.statut
      = .disponible := by
  have hpos : 0 < b.exemplaire_disponible := by omega
  have hne : b.exemplaire_disponible - 1 ≠ 0 := by omega
  simp [Book.decrementer_exemplaire_disponible, Book.incrementer_compteur,
    hpos, hne, hstat]

/-- Effects of a successful run of the borrow loop: one copy per id, one
summary entry per id, one loan per id, all dated from the current date
with the 30-day term. -/
theorem emprunterBoucle_ok (cur : Int) :
    ∀ (ids : List String) (livre : Book) (u : User) {livre' : Book}
      {u' : User} {ls : List Loan},
      emprunterBoucle cur ids livre u = .ok (livre', u', ls) →
      livre.exemplaire_disponible = livre'.exemplaire_disponible + ids.length ∧
      u'.nombre_emprunts_en_cours = u.nombre_emprunts_en_cours + ids.length ∧
      ls.length = ids.length ∧
      ∀ l ∈ ls, l.date_emprunt = cur ∧
        l.date_retour_prevue = cur + DUREE_EMPRUNT_DEFAUT := by
  intro ids
  induction ids with
  | nil =>
      intro livre u livre' u' ls h
      simp only [emprunterBoucle, Except.ok.injEq, Prod.mk.injEq] at h
      obtain ⟨rfl, rfl, rfl⟩ := h
      simp
  | cons id rest ih =>
      intro livre u livre' u' ls h
      unfold emprunterBoucle at h
      cases he : (mkLoan id livre u cur).emprunter livre u with
      | error e => rw [he] at h; exact Except.noConfusion h
      | ok p =>
          obtain ⟨livre1, u1⟩ := p
          rw [he] at h
          dsimp only at h
          cases hb : emprunterBoucle cur rest livre1 u1 with
          | error e => rw [hb] at h; exact Except.noConfusion h
          | ok q =>
              obtain ⟨livre2, u2, ls2⟩ := q
              rw [hb] at h
              simp only [Except.ok.injEq, Prod.mk.injEq] at h
              obtain ⟨rfl, rfl, rfl⟩ := h
              obtain ⟨-, -, hpos, -, hliv1, hu1⟩ := emprunter_ok_elim he
              obtain ⟨e1, e2, e3, e4⟩ := ih livre1 u1 hb
              have hd1 : livre1.exemplaire_disponible
                  = livre.exemplaire_disponible - 1 := by
                rw [hliv1]; exact decr_incr_dispo livre hpos
              have hl1 : u1.nombre_emprunts_en_cours
                  = u.nombre_emprunts_en_cours + 1 := by
                rw [hu1]; simp [User.nombre_emprunts_en_cours]
              refine ⟨by simp only [List.length_cons]; omega,
                by simp only [List.length_cons]; omega, by simp [e3], ?_⟩
              intro l hl
              rcases List.mem_cons.mp hl with rfl | hl'
              · exact ⟨rfl, rfl⟩
              · exact e4 l hl'

/-- The borrow loop succeeds when the book is available, enough copies
are free and the patron stays within the limit. -/
theorem emprunterBoucle_succeeds (cur : Int) :
    ∀ (ids : List String) (livre : Book) (u : User),
      (ids ≠ [] → livre.statut = .disponible) →
      ids.length ≤ livre.exemplaire_disponible →
      u.nombre_emprunts_en_cours + ids.length ≤ u.limite_emprunts →
      ∃ out, emprunterBoucle cur ids livre u = .ok out := by
  intro ids
  induction ids with
  | nil => exact fun livre u _ _ _ => ⟨(livre, u, []), rfl⟩
  | cons id rest ih =>
      intro livre u hstat hdisp hlim
      have hs : livre.statut = .disponible := hstat (by simp)
      have hpos : 0 < livre.exemplaire_disponible := by
        simp only [List.length_cons] at hdisp; omega
      have hl : u.nombre_emprunts_en_cours < u.limite_emprunts := by
        simp only [List.length_cons] at hlim; omega
      have he := emprunter_ok_intro (l := mkLoan id livre u cur)
        rfl hs hpos hl
      set livre1 := livre.decrementer_exemplaire_disponible.incrementer_compteur
        with hliv1
      set u1 : User := { u with
        list_emprunt := u.list_emprunt ++
          [⟨(mkLoan id livre u cur).id_emprunt, (mkLoan id livre u cur).date_emprunt,
            (mkLoan id livre u cur).date_retour_prevue,
            (mkLoan id livre u cur).titre_livre⟩],
        nombre_emprunt_total := u.nombre_emprunt_total + 1 } with hu1
      have hstat1 : rest ≠ [] → livre1.statut = .disponible := by
        intro hne
        have h2 : 1 < livre.exemplaire_disponible := by
          have : 1 ≤ rest.length := List.length_pos.mpr hne
          simp only [List.length_cons] at hdisp; omega
        exact decr_incr_statut livre hs h2
      have hdisp1 : rest.length ≤ livre1.exemplaire_disponible := by
        rw [hliv1, decr_incr_dispo livre hpos]
        simp only [List.length_cons] at hdisp; omega
      have hlim1 : u1.nombre_emprunts_en_cours + rest.length
          ≤ u1.limite_emprunts := by
        have : u1.nombre_emprunts_en_cours = u.nombre_emprunts_en_cours + 1 := by
          rw [hu1]; simp [User.nombre_emprunts_en_cours]
        have hlimeq : u1.limite_emprunts = u.limite_emprunts := by
          rw [hu1]; rfl
        simp only [List.length_cons] at hlim; omega
      obtain ⟨⟨livre2, u2, ls2⟩, hout⟩ := ih livre1 u1 hstat1 hdisp1 hlim1
      refine ⟨(livre2, u2, mkLoan id livre u cur :: ls2), ?_⟩
      unfold emprunterBoucle
      rw [he]
      dsimp only
      rw [hout]

/-! ## Claim theorems -/

/-- C1 (counterexample): in the spec's §8 scenario state the code itself
produces — one copy just returned (`available_copies = 1 > 0`), queue
[Q, R], book status RESERVE because `Loan.retourner` only restores
EMPRUNTE — promoting Q's head reservation does *not* succeed:
`transformer_reservation_en_emprunt` requires `est_disponible()` (status
DISPONIBLE *and* a free copy), returns `false` and changes nothing. -/
theorem promotion_fails_in_scenario_despite_available_copy :
    0 < livreScenario.exemplaire_disponible ∧
    transformer_reservation_en_emprunt stateScenario "reservationQq001"
      "empruntQz900" = (false, stateScenario) := by
  constructor
  · decide
  · decide

/-- C1 (amended): promotion succeeds only under `est_disponible()`
(status DISPONIBLE and `available_copies > 0`), not merely
`available_copies > 0`.  With the scenario title's status reset to
DISPONIBLE, promoting Q's head reservation succeeds: the available count
returns to 0, Q's reservation is removed from the queue and from the
service list, R's remaining reservation is renumbered to position 1, and
the new loan record exists. -/
theorem promotion_succeeds_when_est_disponible :
    (transformer_reservation_en_emprunt stateScenarioDispo
      "reservationQq001" "empruntQz900").1 = true ∧
    ((transformer_reservation_en_emprunt stateScenarioDispo
      "reservationQq001" "empruntQz900").2.books.map
        (fun b => b.exemplaire_disponible)) = [0] ∧
    ((transformer_reservation_en_emprunt stateScenarioDispo
      "reservationQq001" "empruntQz900").2.fileAttente.map
        (fun r => (r.id_reservation, r.position_file)))
      = [("reservationRr002", 1)] ∧
    ((transformer_reservation_en_emprunt stateScenarioDispo
      "reservationQq001" "empruntQz900").2.reservations.map
        (fun r => r.id_reservation)) = ["reservationRr002"] ∧
    ((transformer_reservation_en_emprunt stateScenarioDispo
      "reservationQq001" "empruntQz900").2.loans.map
        (fun l => l.id_emprunt)) = ["empruntQz900"] := by
  refine ⟨?_, ?_, ?_, ?_, ?_⟩ <;> decide

/-- C2: queue positions after two `ajouter_a_file` runs are the
contiguous 1..N, but the order is the *lexicographic* order of the
"JJ/MM/AAAA" date strings, not chronological: the reservation placed on
25/01/2025 (nine days *before* the one placed on 03/02/2025) ends up at
position 2, because "03/02/2025" < "25/01/2025" as strings while
25/01/2025 precedes 03/02/2025 in time. -/
theorem queue_order_is_lexicographic_not_chronological :
    resJan25.date_reservation = Date.format ⟨25, 1, 2025⟩ ∧
    resFeb3.date_reservation = Date.format ⟨3, 2, 2025⟩ ∧
    Date.toDayNumber ⟨25, 1, 2025⟩ < Date.toDayNumber ⟨3, 2, 2025⟩ ∧
    ((ajouter_a_file (ajouter_a_file [] resJan25) resFeb3).map
        (fun r => (r.id_reservation, r.position_file)))
      = [("reservationAb002", 1), ("reservationAa001", 2)] := by
  refine ⟨?_, ?_, ?_, ?_⟩ <;> decide

/-- C3: for a loan due 10/01/2025 seen on 09/01/2025 (exactly one day
before due), `Loan.detecter_retard` returns 0 — never the -1 sentinel
the spec describes, since it clamps with `max(0, ...)` — and
consequently `LoanService.detecter_retards` (whose `jours_retard == -1`
branch is unreachable) files the loan in *neither* the "due tomorrow"
list nor the overdue list. -/
theorem lateness_sentinel_is_never_minus_one :
    loanC3.date_retour_prevue = Date.toDayNumber ⟨10, 1, 2025⟩ ∧
    jan9 = jan10 - 1 ∧
    loanC3.detecter_retard jan9 = 0 ∧
    loanC3.detecter_retard jan9 ≠ -1 ∧
    detecter_retards jan9 [loanC3] = ([], []) := by
  refine ⟨?_, ?_, ?_, ?_, ?_⟩ <;> decide

/-- C4: every successful `Borrow(title, patron, n)` decreases the
title's available count by exactly n, grows the patron's active-loan
count by exactly n, and creates exactly n loan records, each dated with
the current date and due 30 days later. -/
theorem borrow_success_effects
    {livre : Book} {u : User} {n cur : Int} {idGen : Nat → String}
    {livre' : Book} {u' : User} {ls : List Loan}
    (h : emprunter_livre livre u n cur idGen = .ok (livre', u', ls)) :
    livre.exemplaire_disponible = livre'.exemplaire_disponible + n.toNat ∧
    u'.nombre_emprunts_en_cours = u.nombre_emprunts_en_cours + n.toNat ∧
    ls.length = n.toNat ∧
    ∀ l ∈ ls, l.date_emprunt = cur ∧
      l.date_retour_prevue = cur + DUREE_EMPRUNT_DEFAUT := by
  unfold emprunter_livre at h
  split_ifs at h
  have heff := emprunterBoucle_ok cur ((List.range n.toNat).map idGen)
    livre u h
  simpa using heff

/-- C4 (witness): borrowing 2 copies of [livreDeuxDispo] as [userFresh]
on day 0 succeeds and has exactly the effects of the claim. -/
theorem borrow_success_effects_witness :
    emprunter_livre livreDeuxDispo userFresh 2 0 idGenW
      = .ok (livreApresW, userApresW, loansApresW) ∧
    (livreDeuxDispo.exemplaire_disponible
      = livreApresW.exemplaire_disponible + (2 : Int).toNat ∧
    userApresW.nombre_emprunts_en_cours
      = userFresh.nombre_emprunts_en_cours + (2 : Int).toNat ∧
    loansApresW.length = (2 : Int).toNat ∧
    ∀ l ∈ loansApresW, l.date_emprunt = 0 ∧
      l.date_retour_prevue = 0 + DUREE_EMPRUNT_DEFAUT) := by
  have h : emprunter_livre livreDeuxDispo userFresh 2 0 idGenW
      = .ok (livreApresW, userApresW, loansApresW) := by decide
  exact ⟨h, borrow_success_effects h⟩

/-- C5: under the data-model invariant that a patron's active-loan count
never exceeds the limit, `Borrow(title, patron, count)` fails with
LimitExceeded whenever `count` exceeds the remaining limit, and with
InsufficientCopies whenever `count` is within the limit but exceeds the
available copies; in both cases the call returns an error before any
loan record is created (the creation loop is never entered). -/
theorem borrow_failure_errors
    (livre : Book) (u : User) (n cur : Int) (idGen : Nat → String)
    (hinv : u.nombre_emprunts_en_cours ≤ u.limite_emprunts) :
    ((u.limite_emprunts : Int) - (u.nombre_emprunts_en_cours : Int) < n →
      emprunter_livre livre u n cur idGen = .error .limitExceeded) ∧
    (n ≤ (u.limite_emprunts : Int) - (u.nombre_emprunts_en_cours : Int) →
      (livre.exemplaire_disponible : Int) < n →
      emprunter_livre livre u n cur idGen = .error .insufficientCopies) := by
  constructor
  · intro hgt
    unfold emprunter_livre
    rw [if_neg (by omega), if_pos hgt]
  · intro hle hlt
    unfold emprunter_livre
    rw [if_neg (by omega), if_neg (by omega), if_pos hlt]

/-- C5 (witness): a student with 4 active loans borrowing 1 more copy
fails with LimitExceeded; a fresh student asking 3 copies of a title
with only 2 free fails with InsufficientCopies. -/
theorem borrow_failure_errors_witness :
    emprunter_livre livreDeuxDispo userAtLimit 1 0 idGenW
      = .error .limitExceeded ∧
    emprunter_livre livreDeuxDispo userFresh 3 0 idGenW
      = .error .insufficientCopies :=
  ⟨(borrow_failure_errors livreDeuxDispo userAtLimit 1 0 idGenW
      (by decide)).1 (by decide),
   (borrow_failure_errors livreDeuxDispo userFresh 3 0 idGenW
      (by decide)).2 (by decide) (by decide)⟩

/-- C6 (counterexample): the availability count alone does *not* decide
whether a copy can be borrowed: [livreDeuxDispo] with its status set to
RESERVE still has 2 free copies, the fresh student is far below the
limit and asks 1 copy, yet the borrow fails, because
`Loan.verification_disponibilite` goes through `est_disponible()`,
which also requires status DISPONIBLE. -/
theorem status_blocks_borrow_despite_free_copies :
    livreDeuxReserve.exemplaire_disponible = 2 ∧
    emprunter_livre livreDeuxReserve userFresh 1 0 idGenW
      = .error .notAvailable := by
  constructor
  · decide
  · decide

/-- C6 (amended): for a request of `n` copies with `1 ≤ n ≤
available_copies` by a patron with `n` slots left under the limit, the
borrow succeeds *iff* the title's status is DISPONIBLE: the status field
is not advisory — any other status value blocks a borrow the counts
would permit. -/
theorem status_gates_borrow
    (livre : Book) (u : User) (n cur : Int) (idGen : Nat → String)
    (h1 : 1 ≤ n) (h2 : n ≤ (livre.exemplaire_disponible : Int))
    (h3 : n + (u.nombre_emprunts_en_cours : Int)
      ≤ (u.limite_emprunts : Int)) :
    (∃ out, emprunter_livre livre u n cur idGen = .ok out) ↔
      livre.statut = .disponible := by
  constructor
  · rintro ⟨⟨livre', u', ls⟩, h⟩
    unfold emprunter_livre at h
    rw [if_neg (by omega), if_neg (by omega), if_neg (by omega)] at h
    cases hids : (List.range n.toNat).map idGen with
    | nil =>
        exfalso
        have : n.toNat = 0 := by simpa using congrArg List.length hids
        omega
    | cons id rest =>
        rw [hids] at h
        unfold emprunterBoucle at h
        cases he : (mkLoan id livre u cur).emprunter livre u with
        | error e => rw [he] at h; exact Except.noConfusion h
        | ok p =>
            obtain ⟨l1, u1⟩ := p
            exact (emprunter_ok_elim he).2.1
  · intro hstat
    unfold emprunter_livre
    rw [if_neg (by omega), if_neg (by omega), if_neg (by omega)]
    exact emprunterBoucle_succeeds cur ((List.range n.toNat).map idGen)
      livre u (fun _ => hstat) (by simp; omega) (by simp; omega)

/-- C6 (witness): with status DISPONIBLE the same counts do admit the
borrow: 2 copies of [livreDeuxDispo] for the fresh student. -/
theorem status_gates_borrow_witness :
    ∃ out, emprunter_livre livreDeuxDispo userFresh 2 0 idGenW
      = .ok out :=
  (status_gates_borrow livreDeuxDispo userFresh 2 0 idGenW
    (by decide) (by decide) (by decide)).mpr (by decide)

/-- C7 (counterexample): `Reserve` does not fail with AlreadyAvailable
whenever `available_copies > 0`: [livreScenario] has one free copy but
status RESERVE, so `est_disponible()` is false and a reservation by a
third patron is accepted and appended to the queue (at position 3). -/
theorem reserve_accepted_despite_available_copy :
    livreScenario.exemplaire_disponible = 1 ∧
    rW7C.reserver livreScenario userFresh [resQ, resR]
      = .ok ([{ resQ with position_file := 1 },
              { resR with position_file := 2 },
              { rW7C with position_file := 3 }], livreScenario) := by
  constructor
  · decide
  · decide

/-- C7 (amended): `Reserve` fails with AlreadyAvailable *iff*
`est_disponible()` holds (status DISPONIBLE and `available_copies > 0`),
not iff `available_copies > 0`; and when `available_copies == 0` and the
patron holds no active reservation for the title, the reservation is
created and lands in the title's queue. -/
theorem reserve_gate_and_creation
    (r : Reservation) (livre : Book) (u : User) (q : List Reservation)
    (hisbn : livre.isbn = r.id_livre)
    (huser : u.id_user = r.id_utilisateur) :
    (r.reserver livre u q = .error .alreadyAvailable ↔
      (livre.statut = .disponible ∧ 0 < livre.exemplaire_disponible)) ∧
    (livre.exemplaire_disponible = 0 →
      (∀ x ∈ q, x.id_utilisateur ≠ r.id_utilisateur) →
      ∃ q' livre', r.reserver livre u q = .ok (q', livre') ∧
        r.id_reservation ∈ q'.map (fun x => x.id_reservation)) := by
  have hbisbn : (livre.isbn != r.id_livre) = false := by simp [hisbn]
  have hbuser : (u.id_user != r.id_utilisateur) = false := by simp [huser]
  constructor
  · constructor
    · intro h
      by_cases hdisp : livre.est_disponible = true
      · have := hdisp
        unfold Book.est_disponible at this
        constructor
        · simpa using Bool.and_elim_left this
        · simpa using Bool.and_elim_right this
      · exfalso
        unfold Reservation.reserver at h
        rw [if_neg (by simp [hbisbn]), if_neg (by simp [hbuser]),
          if_neg (by simpa using hdisp)] at h
        split_ifs at h
        all_goals exact ResError.noConfusion (Except.error.inj h)
    · rintro ⟨hstat, hpos⟩
      have hdisp : livre.est_disponible = true := by
        simp [Book.est_disponible, hstat, hpos]
      unfold Reservation.reserver
      rw [if_neg (by simp [hbisbn]), if_neg (by simp [hbuser]),
        if_pos (by simpa using hdisp)]
  · intro hzero hnodup
    have hdisp : livre.est_disponible = false := by
      simp [Book.est_disponible, hzero]
    have hany : (q.any fun x => x.id_utilisateur == r.id_utilisateur)
        = false := by
      simp only [List.any_eq_false]
      intro x hx
      simpa using hnodup x hx
    refine ⟨ajouter_a_file q r,
      (if livre.statut ≠ .reserve
        then { livre with statut := .reserve } else livre), ?_, ?_⟩
    · unfold Reservation.reserver
      rw [if_neg (by simp [hbisbn]), if_neg (by simp [hbuser]),
        if_neg (by simp [hdisp]), if_neg (by simp [hany])]
    · exact mem_ajouter_a_file q r

/-- C7 (witness): a fresh patron reserving the fully-borrowed
[livreZeroDispo] (no free copy, empty queue) gets a reservation queued
for that title. -/
theorem reserve_gate_and_creation_witness :
    ∃ q' livre', rW7.reserver livreZeroDispo userFresh [] = .ok (q', livre') ∧
      rW7.id_reservation ∈ q'.map (fun x => x.id_reservation) :=
  (reserve_gate_and_creation rW7 livreZeroDispo userFresh []
    rfl rfl).2 (by decide) (by simp)

/-- C8: round trip — after a successful one-copy borrow
(`Loan.emprunter`), returning the same loan (`Loan.retourner`) succeeds
and restores both the title's available-copy count and the patron's
active-loan count to their exact pre-borrow values (given the
constructor-enforced invariant `available ≤ total`). -/
theorem borrow_return_roundtrip
    {l : Loan} {livre : Book} {u : User} {livre1 : Book} {u1 : User}
    (hcap : livre.exemplaire_disponible ≤ livre.nbre_exemplaire_total)
    (h : l.emprunter livre u = .ok (livre1, u1)) :
    (l.retourner livre1 u1).1 = true ∧
    ((l.retourner livre1 u1).2.1).exemplaire_disponible
      = livre.exemplaire_disponible ∧
    ((l.retourner livre1 u1).2.2).nombre_emprunts_en_cours
      = u.nombre_emprunts_en_cours := by
  obtain ⟨hisbn, hstat, hpos, hlim, hliv1, hu1⟩ := emprunter_ok_elim h
  have hisbn1 : livre1.isbn = l.id_livre := by
    rw [hliv1, decr_incr_isbn]; exact hisbn
  have hd1 : livre1.exemplaire_disponible
      = livre.exemplaire_disponible - 1 := by
    rw [hliv1]; exact decr_incr_dispo livre hpos
  have htot1 : livre1.nbre_exemplaire_total = livre.nbre_exemplaire_total := by
    rw [hliv1, decr_incr_total]
  have hmem : ∃ e ∈ u1.list_emprunt, e.id_emprunt = l.id_emprunt := by
    rw [hu1]
    exact ⟨⟨l.id_emprunt, l.date_emprunt, l.date_retour_prevue, l.titre_livre⟩,
      by simp, rfl⟩
  obtain ⟨l', hrem, hlen⟩ := removeFirstEntry_eq_some hmem
  have hulen : u1.nombre_emprunts_en_cours = u.nombre_emprunts_en_cours + 1 := by
    rw [hu1]; simp [User.nombre_emprunts_en_cours]
  unfold Loan.retourner
  rw [if_neg (by simp [hisbn1])]
  unfold User.retirer_emprunt
  rw [hrem]
  dsimp only
  have hlt : livre1.exemplaire_disponible < livre1.nbre_exemplaire_total := by
    omega
  have hinc : livre1.incrementer_exemplaire_disponible.exemplaire_disponible
      = livre1.exemplaire_disponible + 1 := by
    simp [Book.incrementer_exemplaire_disponible, hlt]
  refine ⟨rfl, ?_, ?_⟩
  · split_ifs <;> simpa [hinc] using by omega
  · simp only [User.nombre_emprunts_en_cours] at hulen ⊢
    omega

/-- C8 (witness): borrowing one copy of [livreDeuxDispo] as [userFresh]
and returning it restores count 2 and loan count 0. -/
theorem borrow_return_roundtrip_witness :
    (loanW8.retourner livreApresW8 userApresW8).1 = true ∧
    ((loanW8.retourner livreApresW8 userApresW8).2.1).exemplaire_disponible
      = livreDeuxDispo.exemplaire_disponible ∧
    ((loanW8.retourner livreApresW8 userApresW8).2.2).nombre_emprunts_en_cours
      = userFresh.nombre_emprunts_en_cours :=
  borrow_return_roundtrip (by decide) (by decide)

/-- C9: `NotifyAvailability` never touches the reservation queue or the
book; with an empty queue it returns false and leaves the log alone;
with a non-empty queue it returns true and appends exactly one
notification block referencing the head reservation — which carries
queue position 1 whenever the queue's positions satisfy the 1..N
invariant the queue operations maintain. -/
theorem notify_is_pure_advisory
    (livre : Book) (q : List Reservation) (log : List Notification) :
    (notifier_disponibilite livre q log).2.1 = q ∧
    (notifier_disponibilite livre q log).2.2.1 = livre ∧
    (q = [] → (notifier_disponibilite livre q log).1 = false ∧
      (notifier_disponibilite livre q log).2.2.2 = log) ∧
    (∀ r rs, q = r :: rs →
      (notifier_disponibilite livre q log).1 = true ∧
      (notifier_disponibilite livre q log).2.2.2
        = log ++ [mkNotification livre r] ∧
      ((q.map fun x => x.position_file) = List.range' 1 q.length →
        r.position_file = 1)) := by
  cases q with
  | nil =>
      refine ⟨rfl, rfl, fun _ => ⟨rfl, rfl⟩, ?_⟩
      intro r rs hq
      exact List.noConfusion hq
  | cons r0 rs0 =>
      refine ⟨rfl, rfl, fun hq => List.noConfusion hq, ?_⟩
      intro r rs hq
      obtain ⟨rfl, rfl⟩ := List.cons.inj hq
      refine ⟨rfl, rfl, ?_⟩
      intro hposes
      simp only [List.map_cons, List.length_cons, List.range'] at hposes
      exact (List.cons.inj hposes).1

/-- C9 (witness): notifying on the §8 scenario queue [Q, R] returns
true, logs one block referencing Q's reservation, and Q is at
position 1. -/
theorem notify_is_pure_advisory_witness :
    (notifier_disponibilite livreScenario [resQ, resR] []).1 = true ∧
    (notifier_disponibilite livreScenario [resQ, resR] []).2.2.2
      = [mkNotification livreScenario resQ] ∧
    resQ.position_file = 1 := by
  obtain ⟨-, -, -, h4⟩ :=
    notify_is_pure_advisory livreScenario [resQ, resR] []
  obtain ⟨h1, h2, h3⟩ := h4 resQ [resR] rfl
  exact ⟨h1, by simpa using h2, h3 (by decide)⟩

/-- C10: return is atomic on failure — when the loan id is found but the
patron's embedded list has no entry for it, or the book's ISBN differs
from the loan's title code, `Loan.retourner` returns false leaving book
and patron untouched (the patron-list removal is attempted before any
catalog mutation), and `LoanService.retourner_livre` then reports false
leaving the active loan set unchanged. -/
theorem return_failure_is_atomic
    {loans : List Loan} {id_emprunt : String} {livre : Book} {u : User}
    {loan : Loan}
    (hfind : loans.find? (fun l => l.id_emprunt == id_emprunt) = some loan)
    (h : (∀ e ∈ u.list_emprunt, e.id_emprunt ≠ loan.id_emprunt) ∨
      livre.isbn ≠ loan.id_livre) :
    loan.retourner livre u = (false, livre, u) ∧
    retourner_livre loans id_emprunt livre u
      = .ok (false, loans, livre, u) := by
  have hret : loan.retourner livre u = (false, livre, u) := by
    by_cases hisbn : livre.isbn = loan.id_livre
    · have hnone : ∀ e ∈ u.list_emprunt, e.id_emprunt ≠ loan.id_emprunt := by
        rcases h with h' | h'
        · exact h'
        · exact absurd hisbn h'
      unfold Loan.retourner
      rw [if_neg (by simp [hisbn])]
      unfold User.retirer_emprunt
      rw [removeFirstEntry_eq_none hnone]
    · unfold Loan.retourner
      rw [if_pos (by simpa using hisbn)]
  refine ⟨hret, ?_⟩
  unfold retourner_livre
  rw [hfind]
  dsimp only
  rw [hret]

/-- C10 (witness): returning loan `empruntAa001` against the matching
book but a patron holding no such entry fails and changes nothing. -/
theorem return_failure_is_atomic_witness :
    loanC3.retourner livreScenario userFresh
      = (false, livreScenario, userFresh) ∧
    retourner_livre [loanC3] "empruntAa001" livreScenario userFresh
      = .ok (false, [loanC3], livreScenario, userFresh) :=
  return_failure_is_atomic (by decide) (Or.inl (by decide))

end Biblio
